import Mathlib

/-!
Shallow embedding of `pysqueezebox/pysqueezebox.py` (a client library for the
Logitech Media Server JSON-RPC protocol) and proofs about the behaviour of its
`Server` and `Player` classes.

JSON values returned by the server are modelled by the inductive type `Value`
(numbers are modelled as integers: every numeric field the library reads is
integral).  Python exceptions are modelled by `Except PyError`; Python `None`
is modelled by `Option.none` (or the `Value.null` constructor when it occurs
inside a JSON document).
-/

namespace Pysqueezebox

/-- A JSON-like Python value, as decoded from the LMS server's responses. -/
inductive Value where
  | null : Value
  | bool : Bool → Value
  | num : Int → Value
  | str : String → Value
  | list : List Value → Value
  | dict : List (String × Value) → Value
deriving Repr

/-- The Python exceptions that the embedded code can raise. -/
inductive PyError where
  | keyError : String → PyError
  | typeError : PyError
  | attributeError : String → PyError
  | indexError : PyError
  | valueError : PyError
  | runtimeError : PyError
deriving Repr, DecidableEq

/-- A player status snapshot: the dictionary `Player._status`. -/
abbrev StatusMap := List (String × Value)

/-- Python dictionary lookup (`d[k]` / `k in d`); JSON object keys are unique,
we return the first binding. -/
def slookup : StatusMap → String → Option Value
  | [], _ => none
  | (k, v) :: rest, key => if k = key then some v else slookup rest key

/-- Python truthiness of a JSON value (`if x:`). -/
def pyTruthy : Value → Bool
  | .null => false
  | .bool b => b
  | .num n => n != 0
  | .str s => s != ""
  | .list l => !l.isEmpty
  | .dict d => !d.isEmpty

/-- `str(n)` for a Python integer. -/
def pyIntStr (n : Int) : String :=
  if n < 0 then "-" ++ Nat.repr n.natAbs else Nat.repr n.natAbs

/-- `str(v)` for a Python value.  Only the leading character of the composite
cases ever matters to the library (they are consumed by a `startswith("-")`
test), so list/dict renderings elide their elements. -/
def pyStr : Value → String
  | .null => "None"
  | .bool b => if b then "True" else "False"
  | .num n => pyIntStr n
  | .str s => s
  | .list _ => "[...]"
  | .dict _ => "\x7b...\x7d"

/-- Python `s.startswith("-")`: true iff the first character is a minus. -/
def startswithMinus (s : String) : Bool :=
  match s.data with
  | [] => false
  | c :: _ => c = '-'

/-- Digits-to-number helper for string parsing. -/
def digitsToNat (l : List Char) : Nat :=
  l.foldl (fun n c => 10 * n + (c.toNat - 48)) 0

/-- Parse `[sign] digits [. digits]` and truncate toward zero, the composite
behaviour of Python `int(float(s))` on the decimal strings the LMS protocol
produces (no exponents or specials). -/
def parseFloatTrunc (s : String) : Option Int :=
  let (neg, body) :=
    match s.data with
    | '-' :: rest => (true, rest)
    | '+' :: rest => (false, rest)
    | l => (false, l)
  let intPart := body.takeWhile (fun c => c ≠ '.')
  let rest := body.dropWhile (fun c => c ≠ '.')
  let ok :=
    match rest with
    | [] => intPart ≠ [] && intPart.all Char.isDigit
    | '.' :: frac =>
        (intPart ≠ [] || frac ≠ []) && intPart.all Char.isDigit &&
          frac.all Char.isDigit && !frac.any (fun c => c = '.')
    | _ => false
  if ok then
    let n : Int := Int.ofNat (digitsToNat intPart)
    some (if neg then -n else n)
  else none

/-- Python `int(float(v))`: numbers pass through (they are integral in our
model), booleans coerce, decimal strings are parsed and truncated toward
zero; other types raise `TypeError`, unparsable strings `ValueError`. -/
def pyFloatAsInt : Value → Except PyError Int
  | .num n => .ok n
  | .bool b => .ok (if b then 1 else 0)
  | .str s =>
    match parseFloatTrunc s with
    | some n => .ok n
    | none => .error .valueError
  | _ => .error .typeError

/-- Parse `[sign] digits` exactly: Python `int(s)` (which, unlike
`int(float(s))`, rejects a decimal point). -/
def parseIntStrict (s : String) : Option Int :=
  let (neg, body) :=
    match s.data with
    | '-' :: rest => (true, rest)
    | '+' :: rest => (false, rest)
    | l => (false, l)
  if body ≠ [] && body.all Char.isDigit then
    let n : Int := Int.ofNat (digitsToNat body)
    some (if neg then -n else n)
  else none

/-- Python `int(v)`. -/
def pyInt : Value → Except PyError Int
  | .num n => .ok n
  | .bool b => .ok (if b then 1 else 0)
  | .str s =>
    match parseIntStrict s with
    | some n => .ok n
    | none => .error .valueError
  | _ => .error .typeError

/-- Python list subscript `l[i]` with negative-index semantics. -/
def pyIdx {α : Type} (l : List α) (i : Int) : Except PyError α :=
  let j := if i < 0 then i + l.length else i
  if h : 0 ≤ j ∧ j.toNat < l.length then .ok (l.get ⟨j.toNat, h.2⟩)
  else .error .indexError

/-- Python subscript `v[k]` with a string key: a lookup on mappings
(`KeyError` if missing), `TypeError` on every other value. -/
def pyGetItem (v : Value) (k : String) : Except PyError Value :=
  match v with
  | .dict d =>
    match slookup d k with
    | some u => .ok u
    | none => .error (.keyError k)
  | _ => .error .typeError

/-- A `Player` object: the id and name it was constructed with, and its
status snapshot `_status` (empty for a player that was never successfully
refreshed, mirroring `Player.__init__`). -/
structure Player where
  player_id : Value
  name : Value
  status : StatusMap := []
deriving Repr

/-- `Player.power`: `self._status["power"] == 1` when the key is present
(Python numeric equality, under which `True == 1`), else `None`. -/
def power (st : StatusMap) : Option Bool :=
  match slookup st "power" with
  | some v =>
    some (match v with
          | .num n => n == 1
          | .bool b => b
          | _ => false)
  | none => none

/-- `Player.mode`: the raw `"mode"` field when present, else `None`. -/
def mode (st : StatusMap) : Option Value :=
  slookup st "mode"

/-- `Player.volume`: `abs(int(float(self._status["mixer volume"])))` when the
key is present, else `None`. -/
def volume (st : StatusMap) : Except PyError (Option Int) :=
  match slookup st "mixer volume" with
  | some v =>
    match pyFloatAsInt v with
    | .ok n => .ok (some |n|)
    | .error e => .error e
  | none => .ok none

/-- `Player.muting`: `str(self._status["mixer volume"]).startswith("-")` when
the key is present, else `None`. -/
def muting (st : StatusMap) : Option Bool :=
  match slookup st "mixer volume" with
  | some v => some (startswithMinus (pyStr v))
  | none => none

/-- `Player.current_title`: the raw `"current_title"` field when present. -/
def current_title (st : StatusMap) : Option Value :=
  slookup st "current_title"

/-- `Player.duration`: `int(float(self._status["duration"]))` when present. -/
def duration (st : StatusMap) : Except PyError (Option Int) :=
  match slookup st "duration" with
  | some v =>
    match pyFloatAsInt v with
    | .ok n => .ok (some n)
    | .error e => .error e
  | none => .ok none

/-- `Player.time`: `int(float(self._status["time"]))` when present. -/
def time (st : StatusMap) : Except PyError (Option Int) :=
  match slookup st "time" with
  | some v =>
    match pyFloatAsInt v with
    | .ok n => .ok (some n)
    | .error e => .error e
  | none => .ok none

/-- `SHUFFLE_MODE = ['none', 'song', 'album']`. -/
def SHUFFLE_MODE : List String := ["none", "song", "album"]

/-- `REPEAT_MODE = ['none', 'song', 'playlist']`. -/
def REPEAT_MODE : List String := ["none", "song", "playlist"]

/-- Subscripting a fixed Python list of strings with a JSON value, as in
`SHUFFLE_MODE[self._status["playlist shuffle"]]`: integer (or boolean)
indices index the table (negative indices from the end, out of range raises
`IndexError`); any other index type raises `TypeError`. -/
def modeTableIdx (table : List String) (v : Value) : Except PyError String :=
  match v with
  | .num n => pyIdx table n
  | .bool b => pyIdx table (if b then 1 else 0)
  | _ => .error .typeError

/-- `Player.shuffle`: `SHUFFLE_MODE[self._status["playlist shuffle"]]` when
the key is present, else `None`. -/
def shuffle (st : StatusMap) : Except PyError (Option String) :=
  match slookup st "playlist shuffle" with
  | some v =>
    match modeTableIdx SHUFFLE_MODE v with
    | .ok s => .ok (some s)
    | .error e => .error e
  | none => .ok none

/-- `Player.repeat`: `REPEAT_MODE[self._status["playlist repeat"]]` when the
key is present, else `None` (named `repeat_mode` here because `repeat` is a
Lean keyword). -/
def repeat_mode (st : StatusMap) : Except PyError (Option String) :=
  match slookup st "playlist repeat" with
  | some v =>
    match modeTableIdx REPEAT_MODE v with
    | .ok s => .ok (some s)
    | .error e => .error e
  | none => .ok none

/-- `Player.playlist`: the raw `"playlist_loop"` field when present. -/
def playlist (st : StatusMap) : Option Value :=
  slookup st "playlist_loop"

/-- The second `try` of `Player.current_track`: `self._status["remoteMeta"]`
with `KeyError` falling through to `return None`. -/
def remoteMetaFallback (st : StatusMap) : Except PyError (Option Value) :=
  .ok (slookup st "remoteMeta")

/-- Python subscript of a status value with an integer index, as in
`self._status["playlist_loop"][cur_index]`.  Lists index with negative-index
semantics (`IndexError` out of range); mappings look the integer up as a key,
which for string-keyed JSON mappings always raises `KeyError`; strings index
their characters; other values raise `TypeError`. -/
def pyIdxValue (v : Value) (i : Int) : Except PyError Value :=
  match v with
  | .list l => pyIdx l i
  | .dict _ => .error (.keyError (pyIntStr i))
  | .str s =>
    match pyIdx s.data i with
    | .ok c => .ok (.str (String.mk [c]))
    | .error e => .error e
  | _ => .error .typeError

/-- `Player.current_track`:
`self._status["playlist_loop"][int(self._status["playlist_cur_index"])]`,
where only `KeyError` is caught (falling back to `remoteMeta`, then `None`);
conversion errors from `int(...)` and `IndexError`/`TypeError` from the
subscript propagate. -/
def current_track (st : StatusMap) : Except PyError (Option Value) :=
  match slookup st "playlist_cur_index" with
  | none => remoteMetaFallback st
  | some v =>
    match pyInt v with
    | .error e => .error e
    | .ok idx =>
      match slookup st "playlist_loop" with
      | none => remoteMetaFallback st
      | some loop =>
        match pyIdxValue loop idx with
        | .ok item => .ok (some item)
        | .error (.keyError _) => remoteMetaFallback st
        | .error e => .error e

/-- Python substring test `k in s` (for a nonempty needle `k`). -/
def strContains (s k : String) : Bool :=
  (s.splitOn k).length > 1

/-- The shared body of `Player.title` / `artist` / `album` / `url`:
`if k in self.current_track: return self.current_track[k]` then `return
None`.  When `current_track` is `None` the membership test raises
`TypeError`; when it is a list or a string the membership test may succeed
but the subsequent string subscript raises `TypeError`. -/
def trackField (st : StatusMap) (k : String) : Except PyError (Option Value) :=
  match current_track st with
  | .error e => .error e
  | .ok none => .error .typeError
  | .ok (some ct) =>
    match ct with
    | .dict d => .ok (slookup d k)
    | .list l =>
      if l.any (fun v => match v with | .str s => s == k | _ => false) then
        .error .typeError
      else .ok none
    | .str s =>
      if strContains s k then .error .typeError else .ok none
    | _ => .error .typeError

/-- `Player.title`. -/
def title (st : StatusMap) : Except PyError (Option Value) :=
  trackField st "title"

/-- `Player.artist`. -/
def artist (st : StatusMap) : Except PyError (Option Value) :=
  trackField st "artist"

/-- `Player.album`. -/
def album (st : StatusMap) : Except PyError (Option Value) :=
  trackField st "album"

/-- `Player.url`. -/
def url (st : StatusMap) : Except PyError (Option Value) :=
  trackField st "url"

/-- `Player.sync_master`: the raw `"sync_master"` field when present. -/
def sync_master (st : StatusMap) : Option Value :=
  slookup st "sync_master"

/-- `Player.sync_slaves`: the raw `"sync_slaves"` field when present. -/
def sync_slaves (st : StatusMap) : Option Value :=
  slookup st "sync_slaves"

/-- `Player.sync_group`: starts from `[self.player_id]`, then *appends* the
whole `sync_slaves` value as one element when it is truthy, then appends the
`sync_master` value when it is truthy. -/
def sync_group (p : Player) : List Value :=
  let g := [p.player_id]
  let g := match sync_slaves p.status with
           | some v => if pyTruthy v then g ++ [v] else g
           | none => g
  match sync_master p.status with
  | some v => if pyTruthy v then g ++ [v] else g
  | none => g

/-- The value a call to `Server.async_query` evaluates to (when it does not
raise): the Python distinguishes `False` (failure sentinel), `True` (command
acknowledged with an empty `result`), a non-empty `result` payload, and the
implicit `None` of the logged invalid-response path. -/
inductive QueryResult where
  | qFalse : QueryResult
  | qTrue : QueryResult
  | qData : Value → QueryResult
  | qNone : QueryResult
deriving Repr

/-- Python truthiness of a `Server.async_query` return value. -/
def qTruthy : QueryResult → Bool
  | .qFalse => false
  | .qTrue => true
  | .qData v => pyTruthy v
  | .qNone => false

/-- What the transport produced for one `Server.async_query` call: either a
transport-level fault (`asyncio.TimeoutError` or `aiohttp.ClientError`,
including a body that fails JSON decoding) or an HTTP reply whose body
parsed as the given JSON value (the body is only read when the status
is 200). -/
inductive Response where
  | transportError : Response
  | http : Nat → Value → Response

/-- `Server.async_query`: transport faults and non-200 statuses return the
failure sentinel `False`; otherwise `data["result"]` is extracted — a truthy
result is returned as data, a falsy one as `True`.  The `except
AttributeError` guard does not catch the exceptions subscripting can
actually raise on a decoded JSON body (`KeyError` when the `result` key is
missing from a mapping, `TypeError` when the body is not a mapping), so
those propagate to the caller; the guarded `None` return is unreachable. -/
def asyncQuery (r : Response) : Except PyError QueryResult :=
  match r with
  | .transportError => .ok .qFalse
  | .http status body =>
    if status ≠ 200 then .ok .qFalse
    else
      match body with
      | .dict d =>
        match slookup d "result" with
        | some result =>
          if pyTruthy result then .ok (.qData result) else .ok .qTrue
        | none => .error (.keyError "result")
      | _ => .error .typeError

/-- `Player.async_update`, as a function of the status-query result: on the
failure sentinel the snapshot is untouched and `False` is returned; otherwise
the code runs `self._status = {}` followed by `self._status.update(response)`
— a mapping response therefore fully replaces the snapshot and `True` is
returned, while any non-mapping response (notably the empty-success value
`True`) leaves the freshly cleared snapshot empty and raises `TypeError`
from `dict.update`. -/
def asyncUpdate (p : Player) (resp : QueryResult) :
    (Except PyError Bool) × Player :=
  match resp with
  | .qFalse => (.ok false, p)
  | .qData (.dict d) => (.ok true, { p with status := d })
  | _ => (.error .typeError, { p with status := [] })

/-- Build one `Player` per roster entry, as the loop body
`players.append(Player(self, player["playerid"], player["name"]))` does;
subscript errors propagate. -/
def buildPlayers : List Value → Except PyError (List Player)
  | [] => .ok []
  | e :: rest =>
    match pyGetItem e "playerid" with
    | .error err => .error err
    | .ok pid =>
      match pyGetItem e "name" with
      | .error err => .error err
      | .ok nm =>
        match buildPlayers rest with
        | .error err => .error err
        | .ok ps => .ok (⟨pid, nm, []⟩ :: ps)

/-- `Server.async_get_players`, as a function of the result of the
`"players" "status"` query: the failure sentinel returns `None`; a mapping
result iterates `data.get("players_loop", [])` building one `Player` per
entry; every non-mapping result (including the empty-success value `True`)
raises `AttributeError` at `data.get`.  A roster value that is not a list is
iterated as Python would iterate it (a mapping yields its keys, a string its
characters, anything else raises `TypeError`). -/
def asyncGetPlayers (resp : QueryResult) :
    Except PyError (Option (List Player)) :=
  match resp with
  | .qFalse => .ok none
  | .qData (.dict d) =>
    match slookup d "players_loop" with
    | none => .ok (some [])
    | some (.list l) =>
      match buildPlayers l with
      | .ok ps => .ok (some ps)
      | .error err => .error err
    | some (.dict d2) =>
      match buildPlayers (d2.map (fun kv => .str kv.1)) with
      | .ok ps => .ok (some ps)
      | .error err => .error err
    | some (.str s) =>
      match buildPlayers (s.data.map (fun c => .str (String.mk [c]))) with
      | .ok ps => .ok (some ps)
      | .error err => .error err
    | some _ => .error .typeError
  | _ => .error (.attributeError "get")

/-- Truthiness of an optional string argument (`if player_id:` / `if name:`
where the argument defaults to `None`). -/
def optStrTruthy : Option String → Bool
  | none => false
  | some s => s != ""

/-- `Server.async_get_player`, as a function of its `player_id` and `name`
arguments and of the result the id-branch status query would produce.  The
id branch returns a `Player` when the query result is truthy and carries a
truthy `player_name` (subscript errors on a non-mapping truthy result
propagate).  The name branch evaluates `self.get_players()` — but the
`Server` class defines no attribute `get_players` (its enumeration method is
`async_get_players`), so attribute lookup raises `AttributeError` before any
query is issued.  With neither argument the method logs and returns
`None`. -/
def asyncGetPlayer (idResp : QueryResult) (player_id : Option String)
    (name : Option String) : Except PyError (Option Player) :=
  if optStrTruthy player_id then
    match idResp with
    | .qFalse => .ok none
    | .qNone => .ok none
    | .qTrue => .error .typeError
    | .qData v =>
      if pyTruthy v then
        match pyGetItem v "player_name" with
        | .error e => .error e
        | .ok nm =>
          if pyTruthy nm then
            .ok (some ⟨.str (player_id.getD ""), nm, []⟩)
          else .ok none
      else .ok none
  else if optStrTruthy name then
    .error (.attributeError "get_players")
  else
    .ok none

/-! ## Command operations

Each `Player.async_*` control method only assembles a positional command and
hands it to `Server.async_query`; none of them touches `self._status`.  We
embed each as a function returning the issued command tokens together with
the (unchanged) `Player`. -/

/-- `Player.async_set_volume`. -/
def asyncSetVolume (p : Player) (vol : Value) : List Value × Player :=
  ([.str "mixer", .str "volume", vol], p)

/-- `Player.async_set_muting` (the flag is shaped to `"1"`/`"0"`). -/
def asyncSetMuting (p : Player) (mute : Bool) : List Value × Player :=
  ([.str "mixer", .str "muting", .str (if mute then "1" else "0")], p)

/-- `Player.async_toggle_pause`. -/
def asyncTogglePause (p : Player) : List Value × Player :=
  ([.str "pause"], p)

/-- `Player.async_play`. -/
def asyncPlay (p : Player) : List Value × Player :=
  ([.str "play"], p)

/-- `Player.async_pause`. -/
def asyncPause (p : Player) : List Value × Player :=
  ([.str "pause", .str "1"], p)

/-- `Player.async_index`. -/
def asyncIndex (p : Player) (index : Value) : List Value × Player :=
  ([.str "playlist", .str "index", index], p)

/-- `Player.async_time`. -/
def asyncTimeCmd (p : Player) (position : Value) : List Value × Player :=
  ([.str "time", position], p)

/-- `Player.async_set_power`. -/
def asyncSetPower (p : Player) (pw : Bool) : List Value × Player :=
  (if pw then [.str "power", .str "1"] else [.str "power", .str "0"], p)

/-- `Player.async_load_url`: issues `["playlist", cmd, url]`. -/
def asyncLoadUrl (p : Player) (u : Value) (cmd : String) :
    List Value × Player :=
  ([.str "playlist", .str cmd, u], p)

/-- `Player.async_set_shuffle`: an unrecognized mode name silently issues no
command (the method returns `None`). -/
def asyncSetShuffle (p : Player) (sh : String) :
    Option (List Value) × Player :=
  (if SHUFFLE_MODE.contains sh then
     some [.str "playlist", .str "shuffle", .num (SHUFFLE_MODE.indexOf sh)]
   else none, p)

/-- `Player.async_set_repeat`: an unrecognized mode name silently issues no
command. -/
def asyncSetRepeat (p : Player) (rp : String) :
    Option (List Value) × Player :=
  (if REPEAT_MODE.contains rp then
     some [.str "playlist", .str "repeat", .num (REPEAT_MODE.indexOf rp)]
   else none, p)

/-- `Player.async_clear_playlist`. -/
def asyncClearPlaylist (p : Player) : List Value × Player :=
  ([.str "playlist", .str "clear"], p)

/-- `Player.async_sync`: the other player may be a `Player` object or a raw
id; a falsy id raises `RuntimeError`. -/
def asyncSync (p : Player) (other : Sum Player Value) :
    (Except PyError (List Value)) × Player :=
  let oid := match other with
             | .inl q => q.player_id
             | .inr v => v
  (if pyTruthy oid then .ok [.str "sync", oid] else .error .runtimeError, p)

/-- `Player.async_unsync`. -/
def asyncUnsync (p : Player) : List Value × Player :=
  ([.str "sync", .str "-"], p)

/-! ## `Player.async_load_playlist`

The method mutates a Python list object (`playlist.pop(0)`), so we model
list objects explicitly: a store of list objects addressed by references,
where `list(playlist_ref)` allocates a fresh object holding a copy of the
contents.  The result of each `async_load_url` sub-command is supplied by an
oracle mapping the issued `(cmd, url)` pair to the query result. -/

/-- The heap of Python list objects relevant to a call. -/
abbrev ListStore := List (List Value)

/-- Dereference a list object (unknown references read as empty). -/
def readRef (store : ListStore) (r : Nat) : List Value :=
  store.getD r []

/-- Overwrite a list object in place. -/
def writeRef (store : ListStore) (r : Nat) (v : List Value) : ListStore :=
  store.set r v

/-- The loop `for item in items: if not await self.async_load_url(
item["url"], cmd): success = False`: extracts each entry's `"url"`
(propagating subscript exceptions), issues one command per entry, and
accumulates the conjunction of the results' truthiness.  Returns the final
`success` flag (or the exception) and the trace of issued `(cmd, url)`
sub-commands. -/
def loadItems (oracle : String → Value → QueryResult) (cmd : String)
    (items : List Value) (success : Bool) :
    (Except PyError Bool) × List (String × Value) :=
  match items with
  | [] => (.ok success, [])
  | item :: rest =>
    match pyGetItem item "url" with
    | .error e => (.error e, [])
    | .ok u =>
      let res := oracle cmd u
      let out := loadItems oracle cmd rest (success && qTruthy res)
      (out.1, (cmd, u) :: out.2)

/-- `Player.async_load_playlist`: copies the caller's list into a fresh
object, then in `insert` mode issues one insert-one-track command per entry
in reversed order; in `play`/`load` mode pops the first entry off the copy
and issues a `play` for it; in every non-`insert` mode the remaining copy is
appended entry by entry with `add` commands.  `pop(0)` on an empty copy
raises `IndexError`.  Returns the conjunction success flag (or the
exception), the final store, and the trace of issued `(cmd, url)`
sub-commands. -/
def asyncLoadPlaylist (oracle : String → Value → QueryResult)
    (store : ListStore) (playlist_ref : Nat) (cmd : String) :
    (Except PyError Bool) × ListStore × List (String × Value) :=
  let copied := readRef store playlist_ref
  let pRef := store.length
  let store1 := store ++ [copied]
  if cmd = "insert" then
    let out := loadItems oracle cmd copied.reverse true
    (out.1, store1, out.2)
  else if cmd = "play" ∨ cmd = "load" then
    match copied with
    | [] => (.error .indexError, store1, [])
    | first :: rest =>
      let store2 := writeRef store1 pRef rest
      match pyGetItem first "url" with
      | .error e => (.error e, store2, [])
      | .ok u =>
        let r0 := oracle "play" u
        let out := loadItems oracle "add" rest (qTruthy r0)
        (out.1, store2, ("play", u) :: out.2)
  else
    let out := loadItems oracle "add" copied true
    (out.1, store1, out.2)

/-- Modelled from the spec: the server's `playlist insert` command (issued by
`async_load_url(url, "insert")`) places the given track immediately after
the current track, i.e. at the head of the upcoming queue.  The server
itself is not part of this repository. -/
def insertNext (queue : List Value) (u : Value) : List Value :=
  u :: queue

/-- The upcoming queue after applying a trace of insert sub-commands in
issue order. -/
def applyInserts (queue : List Value) (tr : List (String × Value)) :
    List Value :=
  tr.foldl (fun q c => insertNext q c.2) queue

/-! ## Helper lemmas -/

lemma digitChar_ne_minus (n : Nat) : Nat.digitChar n ≠ '-' := by
  rcases Nat.lt_or_ge n 16 with h | h
  · interval_cases n <;> decide
  · unfold Nat.digitChar
    repeat rw [if_neg (by omega)]
    decide

lemma toDigitsCore_succ (b f n : Nat) (ds : List Char) :
    Nat.toDigitsCore b (f + 1) n ds =
      if n / b = 0 then Nat.digitChar (n % b) :: ds
      else Nat.toDigitsCore b f (n / b) (Nat.digitChar (n % b) :: ds) := rfl

lemma toDigitsCore_ne_minus (b : Nat) :
    ∀ (fuel n : Nat) (acc : List Char), (∀ c ∈ acc, c ≠ '-') →
      ∀ c ∈ Nat.toDigitsCore b fuel n acc, c ≠ '-' := by
  intro fuel
  induction fuel with
  | zero => intro n acc hacc c hc; exact hacc c hc
  | succ f ih =>
    intro n acc hacc c hc
    rw [toDigitsCore_succ] at hc
    by_cases h : n / b = 0
    · rw [if_pos h] at hc
      cases hc with
      | head => exact digitChar_ne_minus _
      | tail _ h2 => exact hacc c h2
    · rw [if_neg h] at hc
      refine ih (n / b) (Nat.digitChar (n % b) :: acc) ?_ c hc
      intro c2 hc2
      cases hc2 with
      | head => exact digitChar_ne_minus _
      | tail _ h2 => exact hacc c2 h2

lemma startswithMinus_natRepr (m : Nat) :
    startswithMinus (Nat.repr m) = false := by
  have h := toDigitsCore_ne_minus 10 (m + 1) m [] (by intro c hc; cases hc)
  show startswithMinus ⟨Nat.toDigits 10 m⟩ = false
  unfold startswithMinus
  cases hd : Nat.toDigits 10 m with
  | nil => rfl
  | cons c cs =>
    have hc : c ≠ '-' := h c (by rw [Nat.toDigits] at hd; rw [hd]; exact .head _)
    simpa using hc

lemma startswithMinus_minus_append (s : String) :
    startswithMinus ("-" ++ s) = true := by
  cases s with
  | mk l => rfl

lemma startswithMinus_pyIntStr (n : Int) :
    startswithMinus (pyIntStr n) = decide (n < 0) := by
  unfold pyIntStr
  by_cases h : n < 0
  · rw [if_pos h, startswithMinus_minus_append, decide_eq_true h]
  · rw [if_neg h, startswithMinus_natRepr]
    exact (decide_eq_false h).symm

/-! ## Claims -/

/-- C1: on a `Player` created but never successfully refreshed (empty status
snapshot), the properties `power`, `mode`, `volume`, `muting`, `shuffle`,
`repeat`, `current_title`, `duration` and `time` all evaluate to `None`, but
the current-track fields `title`, `artist`, `album` and `url` raise
`TypeError` (the membership test `"title" in self.current_track` is applied
to the `None` returned by `current_track`), contradicting the claim that
every typed property returns the unknown value rather than an error. -/
theorem c1_empty_snapshot_properties :
    power [] = none ∧ mode [] = none ∧
    volume [] = .ok none ∧ muting [] = none ∧
    shuffle [] = .ok none ∧ repeat_mode [] = .ok none ∧
    current_title [] = none ∧ duration [] = .ok none ∧
    time [] = .ok none ∧ current_track [] = .ok none ∧
    title [] = .error .typeError ∧ artist [] = .error .typeError ∧
    album [] = .error .typeError ∧ url [] = .error .typeError :=
  ⟨rfl, rfl, rfl, rfl, rfl, rfl, rfl, rfl, rfl, rfl, rfl, rfl, rfl, rfl⟩

/-- C2 counterexample: for a snapshot whose `sync_slaves` is the list
`["S1"]` and whose `sync_master` is `"M"`, `sync_group` returns
`[own id, ["S1"], "M"]` — the slave list is appended as one nested element —
which is not the flat list `[own id, "S1", "M"]` the claim states. -/
theorem c2_counterexample :
    sync_group ⟨.str "P", .str "Kitchen",
        [("sync_slaves", .list [.str "S1"]), ("sync_master", .str "M")]⟩ =
      [.str "P", .list [.str "S1"], .str "M"] ∧
    sync_group ⟨.str "P", .str "Kitchen",
        [("sync_slaves", .list [.str "S1"]), ("sync_master", .str "M")]⟩ ≠
      [.str "P", .str "S1", .str "M"] := by
  refine ⟨rfl, ?_⟩
  show [Value.str "P", .list [.str "S1"], .str "M"] ≠
    [Value.str "P", .str "S1", .str "M"]
  intro h
  injection h with h1 h2
  injection h2 with h3 h4
  exact Value.noConfusion h3

/-- C2 amended: for every device whose snapshot holds `sync_slaves = [S1]`
(a one-element list) and a non-empty `sync_master` M, `sync_group` returns
the three-element list `[own id, [S1], M]` in that order — the slave list
appearing as a single nested element, with no deduplication and no
sorting. -/
theorem c2_sync_group_nested (pid nm : Value) (st : StatusMap) (s1 m : String)
    (hs : slookup st "sync_slaves" = some (.list [.str s1]))
    (hm : slookup st "sync_master" = some (.str m)) (hm0 : m ≠ "") :
    sync_group ⟨pid, nm, st⟩ = [pid, .list [.str s1], .str m] := by
  unfold sync_group sync_slaves sync_master
  rw [hs, hm]
  simp [pyTruthy, hm0]

/-- C2 witness: the amended statement at a concrete snapshot. -/
theorem c2_sync_group_nested_witness :
    sync_group ⟨.str "P2", .str "Den",
        [("sync_slaves", .list [.str "S1"]), ("sync_master", .str "M")]⟩ =
      [.str "P2", .list [.str "S1"], .str "M"] :=
  c2_sync_group_nested (.str "P2") (.str "Den") _ "S1" "M" rfl rfl
    (by decide)

/-- C3: for every query result the id branch would have produced and every
non-empty name, calling `async_get_player` with a name and no id raises
`AttributeError` — the name branch calls `self.get_players()`, an attribute
the `Server` class does not define (its enumeration method is
`async_get_players`) — instead of enumerating devices and matching
case-insensitively as the claim (and the repository's own
`test_get_player` test) expects. -/
theorem c3_name_lookup_raises (idResp : QueryResult) (n : String)
    (hn : n ≠ "") :
    asyncGetPlayer idResp none (some n) =
      .error (.attributeError "get_players") := by
  unfold asyncGetPlayer
  simp [optStrTruthy, hn]

/-- C3 witness: the failing call at a concrete name. -/
theorem c3_name_lookup_raises_witness :
    asyncGetPlayer .qFalse none (some "Kitchen") =
      .error (.attributeError "get_players") :=
  c3_name_lookup_raises .qFalse "Kitchen" (by decide)

/-- C6: transport faults and non-200 HTTP statuses make `async_query`
return the failure sentinel `False` without raising, as the claim states;
but a well-formed JSON body from which the `result` field cannot be
extracted raises `KeyError` to the caller — the `except AttributeError`
guard does not catch it — instead of logging and yielding `None` as the
claim states. -/
theorem c6_query_error_handling (status : Nat) (body : Value)
    (h : status ≠ 200) :
    asyncQuery .transportError = .ok .qFalse ∧
    asyncQuery (.http status body) = .ok .qFalse ∧
    asyncQuery (.http 200 (.dict [("id", .str "1")])) =
      .error (.keyError "result") := by
  refine ⟨rfl, ?_, rfl⟩
  unfold asyncQuery
  simp [h]

/-- C6 witness: the three behaviours at concrete inputs. -/
theorem c6_query_error_handling_witness :
    asyncQuery .transportError = .ok .qFalse ∧
    asyncQuery (.http 404 .null) = .ok .qFalse ∧
    asyncQuery (.http 200 (.dict [("id", .str "1")])) =
      .error (.keyError "result") :=
  c6_query_error_handling 404 .null (by decide)

/-- C8 counterexample: for a snapshot with raw mixer volume `-150`,
`volume` returns `150`, which lies outside the 0–100 range the claim
asserts (the code takes an absolute value but never clamps). -/
theorem c8_counterexample :
    volume [("mixer volume", .num (-150))] = .ok (some 150) ∧
    muting [("mixer volume", .num (-150))] = some true ∧
    ¬((150 : Int) ≤ 100) := by
  refine ⟨rfl, ?_, by decide⟩
  show some (startswithMinus (pyIntStr (-150))) = some true
  rw [startswithMinus_pyIntStr]
  rfl

/-- C8 amended: for every snapshot whose raw mixer-volume field holds the
integer `n`, `volume` returns the absolute value `|n|` (a non-negative
integer, within 0–100 whenever the raw value lies in -100..100 — the code
never clamps) and `muting` returns true iff the raw value's string form
begins with a minus sign, i.e. iff `n < 0`; in particular raw `-37` yields
volume 37 with muting true, and raw `37` yields volume 37 with muting
false. -/
theorem c8_volume_muting_views (st : StatusMap) (n : Int)
    (h : slookup st "mixer volume" = some (.num n)) :
    volume st = .ok (some |n|) ∧ 0 ≤ |n| ∧
    muting st = some (decide (n < 0)) ∧
    (-100 ≤ n → n ≤ 100 → |n| ≤ 100) := by
  refine ⟨?_, abs_nonneg n, ?_, fun h1 h2 => abs_le.mpr ⟨h1, h2⟩⟩
  · unfold volume
    rw [h]
    rfl
  · unfold muting
    rw [h]
    show some (startswithMinus (pyIntStr n)) = some (decide (n < 0))
    rw [startswithMinus_pyIntStr]

/-- C8 witness: the amended statement at the claim's own example values,
raw `-37` and raw `37`. -/
theorem c8_volume_muting_views_witness :
    (volume [("mixer volume", .num (-37))] = .ok (some 37) ∧ 0 ≤ (37 : Int) ∧
     muting [("mixer volume", .num (-37))] = some true ∧
     (-100 ≤ (-37 : Int) → (-37 : Int) ≤ 100 → (37 : Int) ≤ 100)) ∧
    (volume [("mixer volume", .num 37)] = .ok (some 37) ∧ 0 ≤ (37 : Int) ∧
     muting [("mixer volume", .num 37)] = some false ∧
     (-100 ≤ (37 : Int) → (37 : Int) ≤ 100 → (37 : Int) ≤ 100)) :=
  ⟨c8_volume_muting_views [("mixer volume", .num (-37))] (-37) rfl,
   c8_volume_muting_views [("mixer volume", .num 37)] 37 rfl⟩

/-- C7 counterexample: when the status query succeeds with an empty result
(the empty-success value `True` of the tri-state), `async_update` does not
replace the snapshot with the response and return true — it clears the
snapshot to `{}` and raises `TypeError` from `self._status.update(True)`. -/
theorem c7_counterexample :
    asyncUpdate ⟨.str "P", .str "Kitchen", [("power", .num 1)]⟩ .qTrue =
      (.error .typeError, ⟨.str "P", .str "Kitchen", []⟩) ∧
    (asyncUpdate ⟨.str "P", .str "Kitchen", [("power", .num 1)]⟩ .qTrue).1 ≠
      .ok true := by
  refine ⟨rfl, ?_⟩
  show (Except.error PyError.typeError : Except PyError Bool) ≠ .ok true
  intro h
  exact Except.noConfusion h

/-- C7 amended: on the failure sentinel `async_update` leaves the snapshot
untouched and returns false; on a data-mapping response it fully replaces
the snapshot (no merging) and returns true; on the empty-success response
`True` it clears the snapshot and raises `TypeError`.  No operation other
than the refresh modifies the snapshot: every command method returns the
player unchanged. -/
theorem c7_update_replaces_snapshot (p : Player) (d : StatusMap)
    (vol idx pos u oid : Value) (mute pw : Bool) (cmd sh rp : String) :
    asyncUpdate p .qFalse = (.ok false, p) ∧
    asyncUpdate p (.qData (.dict d)) = (.ok true, { p with status := d }) ∧
    asyncUpdate p .qTrue = (.error .typeError, { p with status := [] }) ∧
    (asyncSetVolume p vol).2 = p ∧ (asyncSetMuting p mute).2 = p ∧
    (asyncTogglePause p).2 = p ∧ (asyncPlay p).2 = p ∧
    (asyncPause p).2 = p ∧ (asyncIndex p idx).2 = p ∧
    (asyncTimeCmd p pos).2 = p ∧ (asyncSetPower p pw).2 = p ∧
    (asyncLoadUrl p u cmd).2 = p ∧ (asyncSetShuffle p sh).2 = p ∧
    (asyncSetRepeat p rp).2 = p ∧ (asyncClearPlaylist p).2 = p ∧
    (asyncSync p (.inr oid)).2 = p ∧ (asyncUnsync p).2 = p :=
  ⟨rfl, rfl, rfl, rfl, rfl, rfl, rfl, rfl, rfl, rfl, rfl, rfl, rfl, rfl,
   rfl, rfl, rfl⟩

lemma buildPlayers_spec :
    ∀ (l ids names : List Value),
      l.map (fun e => pyGetItem e "playerid") = ids.map Except.ok →
      l.map (fun e => pyGetItem e "name") = names.map Except.ok →
      buildPlayers l =
        .ok (List.zipWith (fun i n => ⟨i, n, []⟩) ids names) := by
  intro l
  induction l with
  | nil =>
    intro ids names hid hname
    cases ids with
    | nil =>
      cases names with
      | nil => rfl
      | cons nm ns => exact absurd hname (by simp)
    | cons i is => exact absurd hid (by simp)
  | cons e rest ih =>
    intro ids names hid hname
    cases ids with
    | nil => exact absurd hid (by simp)
    | cons i is =>
      cases names with
      | nil => exact absurd hname (by simp)
      | cons nm ns =>
        simp only [List.map_cons, List.cons.injEq] at hid hname
        obtain ⟨hid1, hid2⟩ := hid
        obtain ⟨hname1, hname2⟩ := hname
        unfold buildPlayers
        rw [hid1, hname1, ih is ns hid2 hname2]
        rfl

/-- C9 counterexample: a `players status` query that succeeds with an empty
result (the empty-success value `True` of the tri-state) makes
`async_get_players` raise `AttributeError` at `data.get`, rather than
return a list. -/
theorem c9_counterexample :
    asyncGetPlayers .qTrue = .error (.attributeError "get") ∧
    asyncGetPlayers .qTrue ≠ .ok (some []) := by
  refine ⟨rfl, ?_⟩
  show (Except.error (PyError.attributeError "get") :
    Except PyError (Option (List Player))) ≠ .ok (some [])
  intro h
  exact Except.noConfusion h

/-- C9 amended: for every `async_get_players` call whose query returns a
data mapping, the result is one `Player` per roster entry, constructed from
the entry's `playerid` and `name`; when the `players_loop` key is absent
from the mapping the result is the empty list, not a failure.  (A query that
succeeds with an empty result — the value `True` — instead raises
`AttributeError`, see the counterexample.) -/
theorem c9_one_player_per_entry (d d0 : StatusMap) (l ids names : List Value)
    (hroster : slookup d "players_loop" = some (.list l))
    (hid : l.map (fun e => pyGetItem e "playerid") = ids.map Except.ok)
    (hname : l.map (fun e => pyGetItem e "name") = names.map Except.ok)
    (habsent : slookup d0 "players_loop" = none) :
    asyncGetPlayers (.qData (.dict d)) =
      .ok (some (List.zipWith (fun i n => ⟨i, n, []⟩) ids names)) ∧
    asyncGetPlayers (.qData (.dict d0)) = .ok (some []) := by
  constructor
  · simp only [asyncGetPlayers]
    rw [hroster]
    show (match buildPlayers l with
          | Except.ok ps => Except.ok (some ps)
          | Except.error err => Except.error err) =
        Except.ok (some (List.zipWith (fun i n => ⟨i, n, []⟩) ids names))
    rw [buildPlayers_spec l ids names hid hname]
  · simp only [asyncGetPlayers]
    rw [habsent]

/-- C9 witness: a two-entry roster and a roster-free mapping. -/
theorem c9_one_player_per_entry_witness :
    asyncGetPlayers (.qData (.dict [("players_loop", .list
        [.dict [("playerid", .str "id1"), ("name", .str "N1")],
         .dict [("playerid", .str "id2"), ("name", .str "N2")]])])) =
      .ok (some [⟨.str "id1", .str "N1", []⟩, ⟨.str "id2", .str "N2", []⟩]) ∧
    asyncGetPlayers (.qData (.dict [("count", .num 0)])) = .ok (some []) :=
  c9_one_player_per_entry
    [("players_loop", .list
        [.dict [("playerid", .str "id1"), ("name", .str "N1")],
         .dict [("playerid", .str "id2"), ("name", .str "N2")]])]
    [("count", .num 0)]
    [.dict [("playerid", .str "id1"), ("name", .str "N1")],
     .dict [("playerid", .str "id2"), ("name", .str "N2")]]
    [.str "id1", .str "id2"] [.str "N1", .str "N2"] rfl rfl rfl rfl


lemma all_map_hetero {a b : Type} (l : List a) (f : a → b) (p : b → Bool) :
    (l.map f).all p = l.all (fun x => p (f x)) := by
  induction l with
  | nil => rfl
  | cons x t ih => simp [List.all_cons, ih]

lemma loadItems_spec (oracle : String → Value → QueryResult) (cmd : String) :
    ∀ (items urls : List Value) (s : Bool),
      items.map (fun e => pyGetItem e "url") = urls.map Except.ok →
      loadItems oracle cmd items s =
        (.ok (s && urls.all (fun u => qTruthy (oracle cmd u))),
         urls.map (fun u => (cmd, u))) := by
  intro items
  induction items with
  | nil =>
    intro urls s h
    cases urls with
    | nil => simp [loadItems]
    | cons u us => exact absurd h (by simp)
  | cons e rest ih =>
    intro urls s h
    cases urls with
    | nil => exact absurd h (by simp)
    | cons u us =>
      simp only [List.map_cons, List.cons.injEq] at h
      obtain ⟨h1, h2⟩ := h
      simp only [loadItems, h1]
      rw [ih us _ h2]
      simp [Bool.and_assoc]

lemma alp_insert (oracle : String → Value → QueryResult) (store : ListStore)
    (r : Nat) :
    asyncLoadPlaylist oracle store r "insert" =
      ((loadItems oracle "insert" (readRef store r).reverse true).1,
       store ++ [readRef store r],
       (loadItems oracle "insert" (readRef store r).reverse true).2) := rfl

lemma readRef_single (l : List Value) : readRef [l] 0 = l := rfl

lemma alp_play (oracle : String → Value → QueryResult) (store : ListStore)
    (r : Nat) (cmd : String) (h1 : cmd ≠ "insert")
    (h2 : cmd = "play" ∨ cmd = "load") :
    asyncLoadPlaylist oracle store r cmd =
      (match readRef store r with
       | [] => (.error .indexError, store ++ [readRef store r], [])
       | first :: rest =>
         match pyGetItem first "url" with
         | .error e =>
           (.error e, writeRef (store ++ [readRef store r]) store.length rest,
            [])
         | .ok u =>
           ((loadItems oracle "add" rest (qTruthy (oracle "play" u))).1,
            writeRef (store ++ [readRef store r]) store.length rest,
            ("play", u) ::
              (loadItems oracle "add" rest (qTruthy (oracle "play" u))).2)) := by
  simp only [asyncLoadPlaylist]
  rw [if_neg h1, if_pos h2]

lemma alp_else (oracle : String → Value → QueryResult) (store : ListStore)
    (r : Nat) (cmd : String) (h1 : cmd ≠ "insert")
    (h2 : ¬(cmd = "play" ∨ cmd = "load")) :
    asyncLoadPlaylist oracle store r cmd =
      ((loadItems oracle "add" (readRef store r) true).1,
       store ++ [readRef store r],
       (loadItems oracle "add" (readRef store r) true).2) := by
  simp only [asyncLoadPlaylist]
  rw [if_neg h1, if_neg h2]

lemma applyInserts_eq (tr : List (String × Value)) (q : List Value) :
    applyInserts q tr = (tr.map Prod.snd).reverse ++ q := by
  induction tr generalizing q with
  | nil => simp [applyInserts]
  | cons c cs ih =>
    show applyInserts (c.2 :: q) cs = _
    rw [ih]
    simp

/-- C4: in `insert` mode, `async_load_playlist` on entries `[e1, ..., en]`
(each carrying a url) issues exactly one insert-one-track sub-command per
entry's url, in reverse list order (`en` first, `e1` last); consequently,
under the server's insert-places-next semantics, the final queue after the
current track is `e1, ..., en` in forward order. -/
theorem c4_insert_reverse_order (oracle : String → Value → QueryResult)
    (entries urls : List Value)
    (h : entries.map (fun e => pyGetItem e "url") = urls.map Except.ok) :
    (asyncLoadPlaylist oracle [entries] 0 "insert").2.2 =
      urls.reverse.map (fun u => ("insert", u)) ∧
    applyInserts [] ((asyncLoadPlaylist oracle [entries] 0 "insert").2.2) =
      urls := by
  have h2 : entries.reverse.map (fun e => pyGetItem e "url") =
      urls.reverse.map Except.ok := by
    rw [List.map_reverse, List.map_reverse, h]
  have htr : (asyncLoadPlaylist oracle [entries] 0 "insert").2.2 =
      urls.reverse.map (fun u => ("insert", u)) := by
    rw [alp_insert, readRef_single,
      loadItems_spec oracle "insert" entries.reverse urls.reverse true h2]
  refine ⟨htr, ?_⟩
  rw [htr, applyInserts_eq]
  simp [List.map_map, Function.comp]

/-- C5 amended: for every entry list (each entry carrying a url) and every
mode — except an empty list with mode `play`/`load`, where `pop(0)` raises
`IndexError` (see the counterexample) — `async_load_playlist` attempts one
sub-command per entry even after earlier failures (the trace has exactly one
command per entry, covering every entry's url), and the returned success
value is true iff every individual sub-command's result was truthy (the
logical AND over the whole trace). -/
theorem c5_success_is_and (oracle : String → Value → QueryResult)
    (entries urls : List Value) (cmd : String)
    (h : entries.map (fun e => pyGetItem e "url") = urls.map Except.ok)
    (hne : (cmd = "play" ∨ cmd = "load") → entries ≠ []) :
    ((asyncLoadPlaylist oracle [entries] 0 cmd).2.2).length =
      entries.length ∧
    (((asyncLoadPlaylist oracle [entries] 0 cmd).2.2).map Prod.snd).Perm
      urls ∧
    (asyncLoadPlaylist oracle [entries] 0 cmd).1 =
      .ok (((asyncLoadPlaylist oracle [entries] 0 cmd).2.2).all
        (fun c => qTruthy (oracle c.1 c.2))) := by
  have hlen : entries.length = urls.length := by
    have h3 := congrArg List.length h
    simpa using h3
  by_cases hins : cmd = "insert"
  · subst hins
    have h2 : entries.reverse.map (fun e => pyGetItem e "url") =
        urls.reverse.map Except.ok := by
      rw [List.map_reverse, List.map_reverse, h]
    rw [alp_insert, readRef_single,
      loadItems_spec oracle "insert" entries.reverse urls.reverse true h2]
    refine ⟨by simp [hlen], ?_, ?_⟩
    · show ((urls.reverse.map (fun u => ("insert", u))).map Prod.snd).Perm
        urls
      simp
    · show Except.ok
          (true && urls.reverse.all (fun u => qTruthy (oracle "insert" u))) =
        .ok ((urls.reverse.map (fun u => ("insert", u))).all
          (fun c => qTruthy (oracle c.1 c.2)))
      simp only [all_map_hetero, Bool.true_and]
  · by_cases hpl : cmd = "play" ∨ cmd = "load"
    · obtain ⟨e, rest, rfl⟩ : ∃ e rest, entries = e :: rest := by
        cases entries with
        | nil => exact absurd rfl (hne hpl)
        | cons e rest => exact ⟨e, rest, rfl⟩
      cases urls with
      | nil => simp at hlen
      | cons u us =>
        simp only [List.map_cons, List.cons.injEq] at h
        obtain ⟨h1, hrest⟩ := h
        rw [alp_play oracle _ _ cmd hins hpl]
        simp only [readRef_single, h1]
        rw [loadItems_spec oracle "add" rest us _ hrest]
        refine ⟨by simpa using hlen.symm, ?_, ?_⟩
        · show ((("play", u) :: us.map (fun v => ("add", v))).map
            Prod.snd).Perm (u :: us)
          simp [List.map_map, Function.comp]
        · show Except.ok (qTruthy (oracle "play" u) &&
              us.all (fun v => qTruthy (oracle "add" v))) =
            .ok ((("play", u) :: us.map (fun v => ("add", v))).all
              (fun c => qTruthy (oracle c.1 c.2)))
          simp only [List.all_cons, all_map_hetero]
    · rw [alp_else oracle _ _ cmd hins hpl, readRef_single,
        loadItems_spec oracle "add" entries urls true h]
      refine ⟨by simp [hlen], ?_, ?_⟩
      · show ((urls.map (fun u => ("add", u))).map Prod.snd).Perm urls
        simp [List.map_map, Function.comp]
      · show Except.ok
            (true && urls.all (fun u => qTruthy (oracle "add" u))) =
          .ok ((urls.map (fun u => ("add", u))).all
            (fun c => qTruthy (oracle c.1 c.2)))
        simp only [all_map_hetero, Bool.true_and]

lemma readRef_append_copy (store : ListStore) (r : Nat) :
    readRef (store ++ [readRef store r]) r = readRef store r := by
  unfold readRef
  rcases Nat.lt_or_ge r store.length with h | h
  · rw [List.getD_eq_getElem?_getD, List.getElem?_append_left h,
      ← List.getD_eq_getElem?_getD]
  · have hx : store.getD r [] = [] := by
      rw [List.getD_eq_getElem?_getD, List.getElem?_eq_none h]
      rfl
    rcases Nat.eq_or_lt_of_le h with heq | hlt
    · rw [List.getD_eq_getElem?_getD,
        List.getElem?_append_right (by omega),
        show r - store.length = 0 by omega]
      simp [hx]
    · rw [List.getD_eq_getElem?_getD,
        List.getElem?_eq_none (by simp; omega), hx]
      rfl

lemma readRef_set_copy (store : ListStore) (r : Nat) (first : Value)
    (rest : List Value) (hc : readRef store r = first :: rest) :
    readRef ((store ++ [readRef store r]).set store.length rest) r =
      readRef store r := by
  have hr : r < store.length := by
    by_contra hcon
    push_neg at hcon
    have hnil : readRef store r = [] := by
      unfold readRef
      rw [List.getD_eq_getElem?_getD, List.getElem?_eq_none hcon]
      rfl
    rw [hnil] at hc
    exact List.noConfusion hc
  unfold readRef
  rw [List.getD_eq_getElem?_getD, List.getElem?_set_ne (by omega),
    List.getElem?_append_left hr, ← List.getD_eq_getElem?_getD]

lemma alp_play_nil (oracle : String → Value → QueryResult)
    (store : ListStore) (r : Nat) (cmd : String) (h1 : cmd ≠ "insert")
    (h2 : cmd = "play" ∨ cmd = "load") (hc : readRef store r = []) :
    asyncLoadPlaylist oracle store r cmd =
      (.error .indexError, store ++ [([] : List Value)], []) := by
  rw [alp_play oracle store r cmd h1 h2, hc]

lemma alp_play_cons (oracle : String → Value → QueryResult)
    (store : ListStore) (r : Nat) (cmd : String) (h1 : cmd ≠ "insert")
    (h2 : cmd = "play" ∨ cmd = "load") (first : Value) (rest : List Value)
    (hc : readRef store r = first :: rest) :
    asyncLoadPlaylist oracle store r cmd =
      (match pyGetItem first "url" with
       | .error e =>
         (.error e, writeRef (store ++ [first :: rest]) store.length rest,
          [])
       | .ok u =>
         ((loadItems oracle "add" rest (qTruthy (oracle "play" u))).1,
          writeRef (store ++ [first :: rest]) store.length rest,
          ("play", u) ::
            (loadItems oracle "add" rest (qTruthy (oracle "play" u))).2)) := by
  rw [alp_play oracle store r cmd h1 h2, hc]

/-- C10: for every store of list objects, every caller list reference,
every mode and every oracle, `async_load_playlist` leaves the caller's list
object unmodified — the method copies it (`playlist = list(playlist_ref)`)
and only ever pops the copy. -/
theorem c10_caller_list_unchanged (oracle : String → Value → QueryResult)
    (store : ListStore) (r : Nat) (cmd : String) :
    readRef (asyncLoadPlaylist oracle store r cmd).2.1 r =
      readRef store r := by
  by_cases hins : cmd = "insert"
  · subst hins
    rw [alp_insert]
    exact readRef_append_copy store r
  · by_cases hpl : cmd = "play" ∨ cmd = "load"
    · cases hc : readRef store r with
      | nil =>
        rw [alp_play_nil oracle store r cmd hins hpl hc]
        have h2 := readRef_append_copy store r
        rw [hc] at h2
        exact h2
      | cons first rest =>
        rw [alp_play_cons oracle store r cmd hins hpl first rest hc]
        have h2 := readRef_set_copy store r first rest hc
        rw [hc] at h2
        cases hu : pyGetItem first "url" with
        | error e => exact h2
        | ok u => exact h2
    · rw [alp_else oracle store r cmd hins hpl]
      exact readRef_append_copy store r

/-- C4 witness: three entries A, B, C are inserted as C, B, A and the
resulting upcoming queue reads A, B, C. -/
theorem c4_insert_reverse_order_witness :
    (asyncLoadPlaylist (fun _ _ => .qTrue)
        [[.dict [("url", .str "A")], .dict [("url", .str "B")],
          .dict [("url", .str "C")]]] 0 "insert").2.2 =
      [("insert", Value.str "C"), ("insert", .str "B"),
       ("insert", .str "A")] ∧
    applyInserts [] ((asyncLoadPlaylist (fun _ _ => .qTrue)
        [[.dict [("url", .str "A")], .dict [("url", .str "B")],
          .dict [("url", .str "C")]]] 0 "insert").2.2) =
      [.str "A", .str "B", .str "C"] := by
  have h := c4_insert_reverse_order (fun _ _ => .qTrue)
    [.dict [("url", .str "A")], .dict [("url", .str "B")],
     .dict [("url", .str "C")]]
    [.str "A", .str "B", .str "C"] rfl
  exact ⟨h.1, h.2⟩

/-- C5 counterexample: on the empty entry list with mode `play`, the claim
says all (zero) sub-commands are attempted and true is returned; the code
instead raises `IndexError` from `playlist.pop(0)`. -/
theorem c5_counterexample :
    (asyncLoadPlaylist (fun _ _ => .qTrue) [[]] 0 "play").1 =
      .error .indexError ∧
    (asyncLoadPlaylist (fun _ _ => .qTrue) [[]] 0 "play").1 ≠ .ok true := by
  refine ⟨rfl, ?_⟩
  show (Except.error PyError.indexError : Except PyError Bool) ≠ .ok true
  intro h
  exact Except.noConfusion h

/-- C5 witness: two entries with a failing `play` sub-command — both entries
are still attempted and the result is the AND of the two results. -/
theorem c5_success_is_and_witness :
    ((asyncLoadPlaylist
        (fun c _ => if c = "play" then QueryResult.qFalse else .qTrue)
        [[.dict [("url", .str "A")], .dict [("url", .str "B")]]] 0
        "play").2.2).length =
      ([.dict [("url", .str "A")], .dict [("url", .str "B")]] :
        List Value).length ∧
    (((asyncLoadPlaylist
        (fun c _ => if c = "play" then QueryResult.qFalse else .qTrue)
        [[.dict [("url", .str "A")], .dict [("url", .str "B")]]] 0
        "play").2.2).map Prod.snd).Perm [.str "A", .str "B"] ∧
    (asyncLoadPlaylist
        (fun c _ => if c = "play" then QueryResult.qFalse else .qTrue)
        [[.dict [("url", .str "A")], .dict [("url", .str "B")]]] 0
        "play").1 =
      .ok (((asyncLoadPlaylist
        (fun c _ => if c = "play" then QueryResult.qFalse else .qTrue)
        [[.dict [("url", .str "A")], .dict [("url", .str "B")]]] 0
        "play").2.2).all
          (fun c => qTruthy
            ((fun cc _ => if cc = "play" then QueryResult.qFalse
              else QueryResult.qTrue) c.1 c.2))) :=
  c5_success_is_and
    (fun c _ => if c = "play" then QueryResult.qFalse else .qTrue)
    [.dict [("url", .str "A")], .dict [("url", .str "B")]]
    [.str "A", .str "B"] "play" rfl (fun _ => List.cons_ne_nil _ _)

end Pysqueezebox
